import Mathlib

set_option linter.unusedVariables false

/-!
Verification development for `packages/cli/src/util/output/create-output.ts`.

The module is a console-output channel: print-family methods that write to the
process error stream, a single in-place progress spinner, and debug tracing.
We embed the module as pure functions over an explicit channel state; every
observable side effect (a stderr write, creating / retexting / stopping a
spinner resource) is recorded as an event in a trace.
-/

namespace CreateOutput

/-! ## String containment machinery -/

/-- Boolean test that the first list of characters is a prefix of the second. -/
def startsWithL : List Char → List Char → Bool
  | [], _ => true
  | _ :: _, [] => false
  | a :: as, b :: bs => a == b && startsWithL as bs

/-- Boolean test that the first list occurs contiguously inside the second. -/
def occursIn (t : List Char) : List Char → Bool
  | [] => startsWithL t []
  | b :: bs => startsWithL t (b :: bs) || occursIn t bs

/-- `strContains s sub` holds when `sub` occurs contiguously inside `s`. -/
def strContains (s sub : String) : Bool := occursIn sub.data s.data

theorem data_app (s t : String) : (s ++ t).data = s.data ++ t.data := rfl

theorem sw_refl (l : List Char) : startsWithL l l = true := by
  induction l with
  | nil => rfl
  | cons a as ih => simp [startsWithL, ih]

theorem sw_self_app (l r : List Char) : startsWithL l (l ++ r) = true := by
  induction l with
  | nil => rfl
  | cons a as ih => simp [startsWithL, ih]

theorem sw_append_both (a b c : List Char) :
    startsWithL (a ++ b) (a ++ c) = startsWithL b c := by
  induction a with
  | nil => rfl
  | cons x xs ih => simp [startsWithL, ih]

theorem occ_of_sw (t s : List Char) (h : startsWithL t s = true) : occursIn t s = true := by
  cases s with
  | nil => simpa [occursIn] using h
  | cons b bs => simp [occursIn, h]

theorem occ_skip (t : List Char) (c : Char) (s : List Char) (h : occursIn t s = true) :
    occursIn t (c :: s) = true := by
  simp [occursIn, h]

theorem occ_append_l (p t s : List Char) (h : occursIn t s = true) :
    occursIn t (p ++ s) = true := by
  induction p with
  | nil => simpa using h
  | cons c cs ih => exact occ_skip _ _ _ ih

/-- A string of the shape `p ++ (t ++ q)` contains `t`. -/
theorem strContains_mid (p t q : String) : strContains (p ++ (t ++ q)) t = true := by
  show occursIn t.data (p ++ (t ++ q)).data = true
  rw [data_app, data_app]
  exact occ_append_l _ _ _ (occ_of_sw _ _ (sw_self_app _ _))

/-- A string of the shape `p ++ t` contains `t`. -/
theorem strContains_tail (p t : String) : strContains (p ++ t) t = true := by
  show occursIn t.data (p ++ t).data = true
  rw [data_app]
  exact occ_append_l _ _ _ (occ_of_sw _ _ (by simpa using sw_self_app t.data []))

/-! ## The clock: a model of the JavaScript `Date` value used by `debug`

`new Date().toISOString()` renders the current UTC time as
`YYYY-MM-DDTHH:MM:SS.mmmZ`.  We model the current date as a record of its
components; `toISOString` renders each component zero-padded to a fixed width
exactly as the ECMAScript Date Time String Format prescribes for in-range
dates (year below 10000, the other components within their calendar bounds,
where fixed-width digit extraction and `padStart` agree). -/

structure Date where
  year : Nat
  month : Nat
  day : Nat
  hour : Nat
  minute : Nat
  second : Nat
  millis : Nat
deriving DecidableEq

/-- The decimal digit character for `n % 10`. -/
def digit (n : Nat) : Char := Nat.digitChar (n % 10)

def pad2 (n : Nat) : String := String.mk [digit (n / 10), digit n]

def pad3 (n : Nat) : String := String.mk [digit (n / 100), digit (n / 10), digit n]

def pad4 (n : Nat) : String := String.mk [digit (n / 1000), digit (n / 100), digit (n / 10), digit n]

/-- Model of `Date.prototype.toISOString`. -/
def Date.toISOString (d : Date) : String :=
  pad4 d.year ++ "-" ++ pad2 d.month ++ "-" ++ pad2 d.day ++ "T" ++ pad2 d.hour ++ ":" ++
    pad2 d.minute ++ ":" ++ pad2 d.second ++ "." ++ pad3 d.millis ++ "Z"

/-- Well-formedness of an ISO-8601 (extended, UTC, millisecond) timestamp:
24 characters `YYYY-MM-DDTHH:MM:SS.mmmZ` with digits in the digit slots. -/
def isISO8601 (s : String) : Bool :=
  match s.data with
  | [y1, y2, y3, y4, a1, m1, m2, a2, d1, d2, t1, hh1, hh2, c1, mm1, mm2, c2, s1, s2, p1,
      f1, f2, f3, z1] =>
    y1.isDigit && y2.isDigit && y3.isDigit && y4.isDigit && a1 == '-' &&
      m1.isDigit && m2.isDigit && a2 == '-' && d1.isDigit && d2.isDigit &&
      t1 == 'T' && hh1.isDigit && hh2.isDigit && c1 == ':' && mm1.isDigit && mm2.isDigit &&
      c2 == ':' && s1.isDigit && s2.isDigit && p1 == '.' && f1.isDigit && f2.isDigit &&
      f3.isDigit && z1 == 'Z'
  | _ => false

theorem digit_isDigit (n : Nat) : (digit n).isDigit = true := by
  have h : n % 10 < 10 := Nat.mod_lt _ (by decide)
  have hall : ∀ m, m < 10 → (Nat.digitChar m).isDigit = true := by decide
  exact hall _ h

/-- Every rendered timestamp is a well-formed ISO-8601 timestamp. -/
theorem toISOString_wf (d : Date) : isISO8601 d.toISOString = true := by
  show isISO8601 (pad4 d.year ++ "-" ++ pad2 d.month ++ "-" ++ pad2 d.day ++ "T" ++
    pad2 d.hour ++ ":" ++ pad2 d.minute ++ ":" ++ pad2 d.second ++ "." ++
    pad3 d.millis ++ "Z") = true
  simp only [pad4, pad3, pad2, isISO8601, data_app]
  simp [digit_isDigit]

/-! ## External collaborators: chalk, the link renderer, boxen -/

namespace chalk

/-- Terminal styling wraps the text between an opening and a closing escape
sequence; the styled text survives verbatim in the middle. -/
def wrap (o c s : String) : String := o ++ s ++ c

def bold (s : String) : String := wrap "\x1b[1m" "\x1b[22m" s

def grey (s : String) : String := wrap "\x1b[90m" "\x1b[39m" s

def gray (s : String) : String := wrap "\x1b[90m" "\x1b[39m" s

def red (s : String) : String := wrap "\x1b[31m" "\x1b[39m" s

def yellow (s : String) : String := wrap "\x1b[33m" "\x1b[39m" s

def cyan (s : String) : String := wrap "\x1b[36m" "\x1b[39m" s

/-- `chalk.bold.yellow` — both styles applied. -/
def boldYellow (s : String) : String := bold (yellow s)

/-- The tagged template `chalk{...}` style `yellow.bold`. -/
def yellowBold (s : String) : String := yellow (bold s)

end chalk

/-- Modelled from the spec: the hyperlink renderer module (`./link`) is not
under `src/`.  Per spec section 6 it maps a URL string to a terminal
representation of a clickable link that displays the URL; the model renders
the URL verbatim. -/
def renderLink (url : String) : String := url

structure Padding where
  top : Nat
  bottom : Nat
  left : Nat
  right : Nat
deriving DecidableEq

structure BoxenOptions where
  padding : Padding
  borderColor : String
deriving DecidableEq

/-- Modelled from the spec: `boxen` is an external collaborator (spec section
6) that returns a bordered block containing the given text; the model keeps
the boxed text verbatim between the border decorations. -/
def boxen (text : String) (opts : BoxenOptions) : String :=
  "(" ++ opts.borderColor ++ " box) " ++ text ++ " (end box)"

/-- The box options `warn` builds: fixed padding and a yellow border, spread
with the caller-supplied overrides (modelled as: caller options, when present,
replace the literal). -/
def warnBoxOptions : Option BoxenOptions → BoxenOptions
  | some o => o
  | none => { padding := { top := 0, bottom := 0, left := 1, right := 1 }, borderColor := "yellow" }

/-! ## Channel state and observable effects -/

/-- One observable effect of the channel: a stderr write, or one of the three
spinner-driver calls (`wait(message, delay)` creating a resource,
`spinner.text = message`, and `spinner()` stopping the resource). -/
inductive Eff where
  | write (s : String)
  | startSpinner (id : Nat) (message : String) (delay : Nat)
  | setText (id : Nat) (message : String)
  | stopSpin (id : Nat)
deriving DecidableEq

/-- An active spinner resource: its identity and its displayed text. -/
structure SpinnerHandle where
  id : Nat
  text : String
deriving DecidableEq

/-- The closure state of `_createOutput`: the construction-time debug flag,
the recorded `spinnerMessage`, the active `spinner` handle, a counter giving
fresh identities to spinner resources, and the current clock value. -/
structure OutputState where
  debugEnabled : Bool
  spinnerMessage : String
  spinner : Option SpinnerHandle
  nextId : Nat
  now : Date
deriving DecidableEq

/-- Termination measure: does the state still hold a nonempty recorded
spinner message (the only thing the re-entrant `stopSpinner` path consumes)? -/
def sMeasure (s : OutputState) : Nat := if s.spinnerMessage = "" then 0 else 1

mutual

/-- `stopSpinner` (lines 128–139).  In debug mode with a recorded message it
first clears the message and emits a debug trace — which re-enters
`stopSpinner` through `debug → log → print` — then stops a live handle if one
is (still) present. -/
def stopSpinner (s : OutputState) : OutputState × List Eff :=
  if h : s.debugEnabled = true ∧ ¬s.spinnerMessage = "" then
    let r := debug ("Spinner stopped (" ++ s.spinnerMessage ++ ")") { s with spinnerMessage := "" }
    match r.1.spinner with
    | some hd => ({ r.1 with spinner := none, spinnerMessage := "" }, r.2 ++ [Eff.stopSpin hd.id])
    | none => r
  else
    match s.spinner with
    | some hd => ({ s with spinner := none, spinnerMessage := "" }, [Eff.stopSpin hd.id])
    | none => (s, [])
termination_by sMeasure s * 4
decreasing_by
  simp only [sMeasure]
  rw [if_neg h.2]
  simp

/-- `print` (lines 30–33): stop any active spinner, then write. -/
def print (str : String) (s : OutputState) : OutputState × List Eff :=
  let r := stopSpinner s
  (r.1, r.2 ++ [Eff.write str])
termination_by sMeasure s * 4 + 1
decreasing_by
  omega

/-- `log` (lines 35–37). -/
def log (str : String) (color : String → String) (s : OutputState) : OutputState × List Eff :=
  print (color ">" ++ " " ++ str ++ "\n") s
termination_by sMeasure s * 4 + 2
decreasing_by
  omega

/-- `debug` (lines 105–113): only in debug mode, log a `[debug]`-tagged,
timestamped line. -/
def debug (str : String) (s : OutputState) : OutputState × List Eff :=
  if s.debugEnabled = true then
    log (chalk.bold "[debug]" ++ " " ++ chalk.gray ("[" ++ Date.toISOString s.now ++ "]") ++ " " ++ str)
      chalk.grey s
  else
    (s, [])
termination_by sMeasure s * 4 + 3
decreasing_by
  omega

end

/-! ## The remaining operations -/

/-- `dim` (lines 39–41). -/
def dim (str : String) (color : String → String) (s : OutputState) : OutputState × List Eff :=
  print (color ("> " ++ str) ++ "\n") s

/-- `note` (lines 74–76): `log` of a `NOTE:` prefix (styled `yellow.bold` by
the chalk tagged template) followed by the text, with `log`'s default color. -/
def note (str : String) (s : OutputState) : OutputState × List Eff :=
  log (chalk.yellowBold "NOTE:" ++ " " ++ str) chalk.grey s

/-- JavaScript truthiness-driven choice on line 52 and line 85:
`slug ? httpsTemplate : link` — a slug that is `null`/`undefined` or the empty
string falls through to `link`. -/
def detailsOf (slug link : Option String) : Option String :=
  match slug with
  | some sl => if sl = "" then link else some ("https://err.sh/vercel/" ++ sl)
  | none => link

/-- JavaScript template interpolation of a possibly-`null` string. -/
def tmpl : Option String → String
  | none => "null"
  | some s => s

/-- The action line `warn` appends inside the box when the details value is
truthy (line 58): `details ? "\n" + action + ": " + renderLink(details) : ""`. -/
def warnActionLine (slug link action : Option String) : String :=
  match detailsOf slug link with
  | some d => if d = "" then "" else "\n" ++ tmpl action ++ ": " ++ renderLink d
  | none => ""

/-- `warn` (lines 43–72).  `slug`, `link` and `action` are `string | null`
parameters (`action` defaults to `"Learn More"` at call sites that omit it);
`options` carries the optional boxen overrides. -/
def warn (str : String) (slug link action : Option String) (options : Option BoxenOptions)
    (s : OutputState) : OutputState × List Eff :=
  let r₁ := print (boxen (chalk.boldYellow "WARN! " ++ str ++ warnActionLine slug link action)
    (warnBoxOptions options)) s
  let r₂ := print "\n" r₁.1
  (r₂.1, r₁.2 ++ r₂.2)

/-- The first line `error` writes (line 84). -/
def errorLine (str : String) : String := chalk.red "Error!" ++ " " ++ str ++ "\n"

/-- `error` (lines 78–89).  `slug` and `link` are optional; `action` is an
optional argument whose omitted value is the default label `"Learn More"`. -/
def error (str : String) (slug link action : Option String) (s : OutputState) :
    OutputState × List Eff :=
  let act := action.getD "Learn More"
  let r₁ := print (errorLine str) s
  match detailsOf slug link with
  | some d =>
    if d = "" then r₁
    else
      let r₂ := print (chalk.bold act ++ ": " ++ renderLink d ++ "\n") r₁.1
      (r₂.1, r₁.2 ++ r₂.2)
  | none => r₁

/-- `prettyError` (lines 91–95): delegate to `error` with the object's
`message`, no slug, its `link` and its `action`. -/
def prettyError (message : String) (link action : Option String) (s : OutputState) :
    OutputState × List Eff :=
  error message none link action s

/-- `ready` (lines 97–99). -/
def ready (str : String) (s : OutputState) : OutputState × List Eff :=
  print (chalk.cyan "> Ready!" ++ " " ++ str ++ "\n") s

/-- `success` (lines 101–103). -/
def success (str : String) (s : OutputState) : OutputState × List Eff :=
  print (chalk.cyan "> Success!" ++ " " ++ str ++ "\n") s

/-- `setSpinner` (lines 115–126), exposed as `spinner` on the returned object.
Records the message; in debug mode it only emits a debug trace; otherwise it
retexts the live handle, or creates a fresh spinner resource (`wait(message,
delay)`) when none is active.  `delay` defaults to 300 at call sites that
omit it. -/
def setSpinner (message : String) (delay : Nat) (s : OutputState) : OutputState × List Eff :=
  let s₀ := { s with spinnerMessage := message }
  if s₀.debugEnabled = true then
    debug ("Spinner invoked (" ++ message ++ ") with a " ++ toString delay ++ "ms delay") s₀
  else
    match s₀.spinner with
    | some hd => ({ s₀ with spinner := some { hd with text := message } }, [Eff.setText hd.id message])
    | none =>
      ({ s₀ with spinner := some { id := s₀.nextId, text := message }, nextId := s₀.nextId + 1 },
        [Eff.startSpinner s₀.nextId message delay])

/-! ## `time` and its task model

`time` awaits a caller-supplied asynchronous task.  A task is modelled by its
outcome (`Except`: a resolution value or the rejection it propagates) together
with the number of milliseconds the await takes — the difference of the two
`Date.now()` readings around it. -/

/-- The `label` parameter of `time`: a string, or a function of the (optional)
task result. -/
inductive TimeLabel (α : Type) where
  | str (l : String)
  | fn (f : Option α → String)

/-- A caller-supplied asynchronous unit of work. -/
structure AsyncTask (ε α : Type) where
  result : Except ε α
  duration : Nat

/-- The `fn` parameter of `time`: an already-started task, or a thunk
producing one. -/
def TimeTask (ε α : Type) : Type := AsyncTask ε α ⊕ (Unit → AsyncTask ε α)

/-- `typeof fn === 'function' ? fn() : fn` (line 145). -/
def resolveTask {ε α : Type} : TimeTask ε α → AsyncTask ε α
  | Sum.inl p => p
  | Sum.inr f => f ()

/-- `typeof label === 'function' ? label(r) : label` (lines 148 and 152);
the start label is computed with no argument, the end label with the result. -/
def labelStr {α : Type} (label : TimeLabel α) (r : Option α) : String :=
  match label with
  | TimeLabel.str l => l
  | TimeLabel.fn f => f r

/-- Model of `(ms / 1000).toFixed(2)` for a millisecond count, using exact
decimal rounding (round half away from zero); the double-precision value the
code divides can differ from the exact quotient only at representation error
of the tie digit, which the format-shape claims do not depend on. -/
def toFixed2 (ms : Nat) : String :=
  let n := (ms + 5) / 10
  toString (n / 100) ++ "." ++ pad2 (n % 100)

/-- Lines 154–155: milliseconds under 1000, otherwise seconds with two
decimal places. -/
def durationPretty (d : Nat) : String :=
  if d < 1000 then toString d ++ "ms" else toFixed2 d ++ "s"

/-- `time` (lines 141–161).  Returns the updated state, the trace, and the
outcome the caller observes (`Except.error` when the awaited task rejects, in
which case the lines after the await do not run). -/
def time {ε α : Type} (label : TimeLabel α) (fn : TimeTask ε α) (s : OutputState) :
    (OutputState × List Eff) × Except ε α :=
  let promise := resolveTask fn
  if s.debugEnabled = true then
    let r₁ := debug (labelStr label none) s
    match promise.result with
    | Except.error e => ((r₁.1, r₁.2), Except.error e)
    | Except.ok v =>
      let r₂ := debug (labelStr label (some v) ++ " " ++
        chalk.gray ("[" ++ durationPretty promise.duration ++ "]")) r₁.1
      ((r₂.1, r₁.2 ++ r₂.2), Except.ok v)
  else
    ((s, []), promise.result)

/-! ## Closed forms for the recursive core -/

/-- The exact stderr line `debug str` produces through `log`'s default
styling: marker, `[debug]` tag, bracketed timestamp, text, newline. -/
def debugLine (d : Date) (str : String) : String :=
  chalk.grey ">" ++ " " ++
    (chalk.bold "[debug]" ++ " " ++ chalk.gray ("[" ++ Date.toISOString d ++ "]") ++ " " ++ str) ++
    "\n"

/-- The debug trace `stopSpinner` emits for a recorded message. -/
def stoppedLine (s : OutputState) : String :=
  debugLine s.now ("Spinner stopped (" ++ s.spinnerMessage ++ ")")

/-- The state `stopSpinner` leaves: no live handle, and the recorded message
cleared whenever the debug-trace branch or the handle-stopping branch ran. -/
def stopState (s : OutputState) : OutputState :=
  { s with
    spinner := none
    spinnerMessage :=
      if (s.debugEnabled = true ∧ ¬s.spinnerMessage = "") ∨ s.spinner.isSome = true then ""
      else s.spinnerMessage }

/-- The trace `stopSpinner` emits: the stop effect of a live handle (the
re-entrant debug path stops it before the debug line is written), then the
debug trace for a recorded message. -/
def stopTrace (s : OutputState) : List Eff :=
  (match s.spinner with
   | some hd => [Eff.stopSpin hd.id]
   | none => []) ++
  (if s.debugEnabled = true ∧ ¬s.spinnerMessage = "" then [Eff.write (stoppedLine s)] else [])

theorem print_eq (str : String) (s : OutputState) :
    print str s = ((stopSpinner s).1, (stopSpinner s).2 ++ [Eff.write str]) := by
  rw [print]

theorem log_eq (str : String) (color : String → String) (s : OutputState) :
    log str color s = print (color ">" ++ " " ++ str ++ "\n") s := by
  rw [log]

theorem debug_pos (str : String) (s : OutputState) (h : s.debugEnabled = true) :
    debug str s =
      log (chalk.bold "[debug]" ++ " " ++ chalk.gray ("[" ++ Date.toISOString s.now ++ "]") ++ " " ++ str)
        chalk.grey s := by
  rw [debug, if_pos h]

theorem debug_neg (str : String) (s : OutputState) (h : ¬s.debugEnabled = true) :
    debug str s = (s, []) := by
  rw [debug, if_neg h]

/-- `debug` in debug mode: stop the spinner, then write the debug line. -/
theorem debug_expand (str : String) (s : OutputState) (h : s.debugEnabled = true) :
    debug str s = ((stopSpinner s).1, (stopSpinner s).2 ++ [Eff.write (debugLine s.now str)]) := by
  rw [debug_pos str s h, log_eq, print_eq, debugLine]

/-- Closed form of `stopSpinner`. -/
theorem stopSpinner_eq (s : OutputState) : stopSpinner s = (stopState s, stopTrace s) := by
  by_cases hd : s.debugEnabled = true ∧ ¬s.spinnerMessage = ""
  · have hcl : ({ s with spinnerMessage := "" } : OutputState).debugEnabled = true := hd.1
    have hstop :
        stopSpinner { s with spinnerMessage := "" } =
          (match s.spinner with
           | some h₀ =>
             ({ s with spinner := none, spinnerMessage := "" }, [Eff.stopSpin h₀.id])
           | none => ({ s with spinnerMessage := "" }, [])) := by
      rw [stopSpinner]
      simp
    rw [stopSpinner, dif_pos hd]
    rw [debug_expand _ _ hcl, hstop]
    cases hsp : s.spinner with
    | none =>
      simp only [hsp]
      simp [stopState, stopTrace, stoppedLine, hsp, hd, hd.1, hd.2]
    | some h₀ =>
      simp only [hsp]
      simp [stopState, stopTrace, stoppedLine, hsp, hd, hd.1, hd.2]
  · rw [stopSpinner, dif_neg hd]
    cases hsp : s.spinner with
    | none =>
      simp [stopState, stopTrace, hsp, hd]
      rw [← hsp]
    | some h₀ =>
      simp [stopState, stopTrace, hsp, hd]

theorem stopState_spinner (s : OutputState) : (stopState s).spinner = none := rfl

theorem stopState_now (s : OutputState) : (stopState s).now = s.now := rfl

theorem stopState_debugEnabled (s : OutputState) : (stopState s).debugEnabled = s.debugEnabled := rfl

theorem stopState_msg_of_debug (s : OutputState) (h : s.debugEnabled = true) :
    (stopState s).spinnerMessage = "" := by
  by_cases hm : s.spinnerMessage = ""
  · simp only [stopState]
    split <;> simp [hm]
  · simp [stopState, h, hm]

/-- A stopped channel is a fixed point: a second `stopSpinner` does nothing. -/
theorem stopSpinner_noop (s : OutputState) (h1 : s.spinner = none)
    (h2 : s.debugEnabled = true → s.spinnerMessage = "") : stopSpinner s = (s, []) := by
  have hc : ¬(s.debugEnabled = true ∧ ¬s.spinnerMessage = "") := by
    rintro ⟨ha, hb⟩
    exact hb (h2 ha)
  rw [stopSpinner_eq]
  simp [stopState, stopTrace, h1, hc]
  rw [← h1]

theorem stopSpinner_on_stopState (s : OutputState) :
    stopSpinner (stopState s) = (stopState s, []) :=
  stopSpinner_noop _ rfl (fun h => stopState_msg_of_debug s h)

theorem stopState_idem (s : OutputState) : stopState (stopState s) = stopState s := by
  have hc : ¬(((stopState s).debugEnabled = true ∧ ¬(stopState s).spinnerMessage = "") ∨
      ((stopState s).spinner.isSome = true)) := by
    rintro (⟨ha, hb⟩ | hs)
    · exact hb (stopState_msg_of_debug s ha)
    · simp [stopState_spinner] at hs
  conv_lhs => rw [stopState]
  rw [if_neg hc, ← stopState_spinner s]

theorem stopTrace_stopState (s : OutputState) : stopTrace (stopState s) = [] := by
  by_cases h : s.debugEnabled = true
  · simp [stopTrace, stopState_spinner, stopState_msg_of_debug s h]
  · simp [stopTrace, stopState_spinner, stopState_debugEnabled, h]

/-! ## Closed forms of the print family -/

theorem print_expand (str : String) (s : OutputState) :
    print str s = (stopState s, stopTrace s ++ [Eff.write str]) := by
  rw [print_eq, stopSpinner_eq]

theorem log_expand (str : String) (color : String → String) (s : OutputState) :
    log str color s =
      (stopState s, stopTrace s ++ [Eff.write (color ">" ++ " " ++ str ++ "\n")]) := by
  rw [log_eq, print_expand]

theorem debug_on (str : String) (s : OutputState) (h : s.debugEnabled = true) :
    debug str s = (stopState s, stopTrace s ++ [Eff.write (debugLine s.now str)]) := by
  rw [debug_expand str s h, stopSpinner_eq]

theorem dim_expand (str : String) (color : String → String) (s : OutputState) :
    dim str color s = (stopState s, stopTrace s ++ [Eff.write (color ("> " ++ str) ++ "\n")]) := by
  rw [dim, print_expand]

theorem note_expand (str : String) (s : OutputState) :
    note str s =
      (stopState s,
       stopTrace s ++ [Eff.write (chalk.grey ">" ++ " " ++ (chalk.yellowBold "NOTE:" ++ " " ++ str) ++ "\n")]) := by
  rw [note, log_expand]

theorem ready_expand (str : String) (s : OutputState) :
    ready str s = (stopState s, stopTrace s ++ [Eff.write (chalk.cyan "> Ready!" ++ " " ++ str ++ "\n")]) := by
  rw [ready, print_expand]

theorem success_expand (str : String) (s : OutputState) :
    success str s =
      (stopState s, stopTrace s ++ [Eff.write (chalk.cyan "> Success!" ++ " " ++ str ++ "\n")]) := by
  rw [success, print_expand]

theorem warn_expand (str : String) (slug link action : Option String)
    (options : Option BoxenOptions) (s : OutputState) :
    warn str slug link action options s =
      (stopState s,
       stopTrace s ++
         [Eff.write (boxen (chalk.boldYellow "WARN! " ++ str ++ warnActionLine slug link action)
            (warnBoxOptions options)),
          Eff.write "\n"]) := by
  rw [warn]
  simp only [print_expand, stopState_idem, stopTrace_stopState]
  simp

theorem error_expand (str : String) (slug link action : Option String) (s : OutputState) :
    error str slug link action s =
      (stopState s,
       stopTrace s ++
         (Eff.write (errorLine str) ::
           (match detailsOf slug link with
            | some d =>
              if d = "" then []
              else [Eff.write (chalk.bold (action.getD "Learn More") ++ ": " ++ renderLink d ++ "\n")]
            | none => []))) := by
  rw [error]
  cases hdet : detailsOf slug link with
  | none => simp [print_expand]
  | some d =>
    by_cases hd : d = ""
    · simp [hd, print_expand]
    · simp only [hd, if_neg hd, print_expand, stopState_idem, stopTrace_stopState]
      simp

/-! ## Classifying effects -/

def isWrite : Eff → Bool
  | Eff.write _ => true
  | _ => false

def isStopEff : Eff → Bool
  | Eff.stopSpin _ => true
  | _ => false

def isStartEff : Eff → Bool
  | Eff.startSpinner _ _ _ => true
  | _ => false

/-- No spinner-stop effect occurs after the first stderr write of the trace. -/
def noStopAfterWrite : List Eff → Bool
  | [] => true
  | Eff.write _ :: rest => rest.all fun e => !isStopEff e
  | _ :: rest => noStopAfterWrite rest

theorem all_notStop_of_writes (ws : List Eff) (h : ∀ e ∈ ws, isWrite e = true) :
    (ws.all fun e => !isStopEff e) = true := by
  rw [List.all_eq_true]
  intro e he
  have hw := h e he
  cases e <;> simp [isStopEff] <;> simp [isWrite] at hw

theorem noStop_of_writes (ws : List Eff) (h : ∀ e ∈ ws, isWrite e = true) :
    noStopAfterWrite ws = true := by
  induction ws with
  | nil => rfl
  | cons e rest ih =>
    have he := h e (by simp)
    cases e with
    | write str =>
      simpa only [noStopAfterWrite] using all_notStop_of_writes rest fun x hx => h x (by simp [hx])
    | startSpinner a b c => simp [isWrite] at he
    | setText a b => simp [isWrite] at he
    | stopSpin a => simp [isWrite] at he

theorem noStopAfterWrite_stopTrace (s : OutputState) (ws : List Eff)
    (h : ∀ e ∈ ws, isWrite e = true) : noStopAfterWrite (stopTrace s ++ ws) = true := by
  have hws := noStop_of_writes ws h
  have hall := all_notStop_of_writes ws h
  unfold stopTrace
  by_cases hc : s.debugEnabled = true ∧ ¬s.spinnerMessage = ""
  · cases s.spinner <;> simp [hc, noStopAfterWrite, hall]
  · cases s.spinner <;> simp [hc, noStopAfterWrite, hws]

theorem stopSpin_mem_stopTrace (s : OutputState) (hd : SpinnerHandle) (h : s.spinner = some hd) :
    Eff.stopSpin hd.id ∈ stopTrace s := by
  simp [stopTrace, h]

/-! ## Closed forms of `setSpinner` -/

theorem setSpinner_debug_expand (m : String) (dl : Nat) (s : OutputState)
    (h : s.debugEnabled = true) :
    setSpinner m dl s =
      (stopState { s with spinnerMessage := m },
       stopTrace { s with spinnerMessage := m } ++
         [Eff.write (debugLine s.now
           ("Spinner invoked (" ++ m ++ ") with a " ++ toString dl ++ "ms delay"))]) := by
  have h₀ : ({ s with spinnerMessage := m } : OutputState).debugEnabled = true := h
  rw [setSpinner]
  rw [if_pos h₀, debug_on _ _ h₀]

theorem setSpinner_active (m : String) (dl : Nat) (s : OutputState) (hd : SpinnerHandle)
    (h : s.debugEnabled = false) (hsp : s.spinner = some hd) :
    setSpinner m dl s =
      ({ s with spinnerMessage := m, spinner := some { hd with text := m } },
       [Eff.setText hd.id m]) := by
  rw [setSpinner]
  simp [h, hsp]

theorem setSpinner_fresh (m : String) (dl : Nat) (s : OutputState)
    (h : s.debugEnabled = false) (hsp : s.spinner = none) :
    setSpinner m dl s =
      ({ s with
          spinnerMessage := m
          spinner := some { id := s.nextId, text := m }
          nextId := s.nextId + 1 },
       [Eff.startSpinner s.nextId m dl]) := by
  rw [setSpinner]
  simp [h, hsp]

/-! ## Concrete states for witnesses and counterexamples -/

def epochDate : Date :=
  { year := 1970, month := 1, day := 1, hour := 0, minute := 0, second := 0, millis := 0 }

/-- A freshly constructed debug-mode channel. -/
def dbgState : OutputState :=
  { debugEnabled := true, spinnerMessage := "", spinner := none, nextId := 0, now := epochDate }

/-- A debug-mode channel right after `setSpinner` recorded a message
(reachable in debug mode, where no handle is ever created). -/
def dbgBusy : OutputState :=
  { debugEnabled := true, spinnerMessage := "work", spinner := none, nextId := 0, now := epochDate }

/-- A non-debug channel with a live spinner. -/
def spinState : OutputState :=
  { debugEnabled := false
    spinnerMessage := "work"
    spinner := some { id := 0, text := "work" }
    nextId := 1
    now := epochDate }

/-- A freshly constructed non-debug channel. -/
def plainState : OutputState :=
  { debugEnabled := false, spinnerMessage := "", spinner := none, nextId := 0, now := epochDate }

/-! ## More string-containment lemmas, and the stderr output of a trace -/

theorem str_assoc (a b c : String) : a ++ b ++ c = a ++ (b ++ c) :=
  congrArg String.mk (List.append_assoc a.data b.data c.data)

theorem occ_nil (r : List Char) : occursIn [] r = true := by
  cases r <;> simp [occursIn, startsWithL]

theorem sw_mono (t : List Char) : ∀ s r : List Char, startsWithL t s = true →
    startsWithL t (s ++ r) = true := by
  induction t with
  | nil => intro s r h; rfl
  | cons a as ih =>
    intro s r h
    cases s with
    | nil => simp [startsWithL] at h
    | cons b bs =>
      simp only [startsWithL, Bool.and_eq_true] at h
      simp [startsWithL, h.1, ih bs r h.2]

theorem occ_append_r (t : List Char) : ∀ s r : List Char, occursIn t s = true →
    occursIn t (s ++ r) = true := by
  intro s
  induction s with
  | nil =>
    intro r h
    cases t with
    | nil => exact occ_nil r
    | cons a as => simp [occursIn, startsWithL] at h
  | cons b bs ih =>
    intro r h
    simp only [occursIn, Bool.or_eq_true] at h
    rcases h with h | h
    · exact occ_of_sw _ _ (by simpa using sw_mono t (b :: bs) r h)
    · exact occ_skip _ _ _ (ih r h)

theorem strContains_refl (t : String) : strContains t t = true :=
  occ_of_sw _ _ (sw_refl t.data)

theorem strContains_left (a b t : String) (h : strContains a t = true) :
    strContains (a ++ b) t = true := by
  show occursIn t.data (a ++ b).data = true
  rw [data_app]
  exact occ_append_r _ _ _ h

theorem strContains_right (a b t : String) (h : strContains b t = true) :
    strContains (a ++ b) t = true := by
  show occursIn t.data (a ++ b).data = true
  rw [data_app]
  exact occ_append_l _ _ _ h

/-- The concatenation of everything a trace writes to stderr. -/
def outputCat : List Eff → String
  | [] => ""
  | Eff.write s :: r => s ++ outputCat r
  | _ :: r => outputCat r

theorem outputCat_append (a b : List Eff) : outputCat (a ++ b) = outputCat a ++ outputCat b := by
  induction a with
  | nil => simp [outputCat]
  | cons e r ih => cases e <;> simp [outputCat, ih, str_assoc]

/-! ## C1 -/

/-- The discipline C1 asserts of one operation invoked at state `s`: no stop
effect after the first write, the handle released afterwards, and a live
handle's stop effect present in the trace. -/
def stopsFirst (s : OutputState) (r : OutputState × List Eff) : Prop :=
  noStopAfterWrite r.2 = true ∧ r.1.spinner = none ∧
    ∀ hd, s.spinner = some hd → Eff.stopSpin hd.id ∈ r.2

theorem stopsFirst_form (s : OutputState) (ws : List Eff) (h : ∀ e ∈ ws, isWrite e = true) :
    stopsFirst s (stopState s, stopTrace s ++ ws) := by
  refine ⟨noStopAfterWrite_stopTrace s ws h, rfl, ?_⟩
  intro hd hsp
  exact List.mem_append_left _ (stopSpin_mem_stopTrace s hd hsp)

/-- C1: every print-family operation (print, log, dim, note, warn, error,
prettyError, ready, success, and debug when debug mode is enabled), at every
channel state, first stops any active spinner — the handle is released and
the stop effect occurs — before any text is written to the error stream. -/
theorem c1_print_family_stops_spinner_first (str m : String) (color : String → String)
    (slug link action : Option String) (opts : Option BoxenOptions) (s : OutputState) :
    stopsFirst s (print str s) ∧
    stopsFirst s (log str color s) ∧
    stopsFirst s (dim str color s) ∧
    stopsFirst s (note str s) ∧
    stopsFirst s (warn m slug link action opts s) ∧
    stopsFirst s (error m slug link action s) ∧
    stopsFirst s (prettyError m link action s) ∧
    stopsFirst s (ready str s) ∧
    stopsFirst s (success str s) ∧
    (s.debugEnabled = true → stopsFirst s (debug str s)) := by
  refine ⟨?_, ?_, ?_, ?_, ?_, ?_, ?_, ?_, ?_, ?_⟩
  · rw [print_expand]
    exact stopsFirst_form s _ (by simp [isWrite])
  · rw [log_expand]
    exact stopsFirst_form s _ (by simp [isWrite])
  · rw [dim_expand]
    exact stopsFirst_form s _ (by simp [isWrite])
  · rw [note_expand]
    exact stopsFirst_form s _ (by simp [isWrite])
  · rw [warn_expand]
    exact stopsFirst_form s _ (by simp [isWrite])
  · rw [error_expand]
    apply stopsFirst_form
    cases detailsOf slug link with
    | none => simp [isWrite]
    | some d =>
      by_cases hd : d = "" <;> simp [hd, isWrite]
  · rw [prettyError, error_expand]
    apply stopsFirst_form
    cases detailsOf none link with
    | none => simp [isWrite]
    | some d =>
      by_cases hd : d = "" <;> simp [hd, isWrite]
  · rw [ready_expand]
    exact stopsFirst_form s _ (by simp [isWrite])
  · rw [success_expand]
    exact stopsFirst_form s _ (by simp [isWrite])
  · intro h
    rw [debug_on _ _ h]
    exact stopsFirst_form s _ (by simp [isWrite])

theorem c1_witness :
    dbgState.debugEnabled = true ∧ stopsFirst dbgState (debug "x" dbgState) :=
  ⟨rfl,
    (c1_print_family_stops_spinner_first "x" "m" id none none none none
      dbgState).2.2.2.2.2.2.2.2.2 rfl⟩

/-! ## C7 -/

/-- C7: when no spinner handle exists and (in debug mode) no spinner message
is recorded, `stopSpinner` writes nothing and leaves the state unchanged; and
after any `stopSpinner` a second call is always a no-op. -/
theorem c7_stopSpinner_noop_when_inactive (s : OutputState) (h1 : s.spinner = none)
    (h2 : s.debugEnabled = true → s.spinnerMessage = "") :
    stopSpinner s = (s, []) ∧
      ∀ t : OutputState, stopSpinner (stopSpinner t).1 = ((stopSpinner t).1, []) := by
  refine ⟨stopSpinner_noop s h1 h2, ?_⟩
  intro t
  simp only [stopSpinner_eq]
  simp [stopState_idem, stopTrace_stopState]

theorem c7_witness :
    plainState.spinner = none ∧
      (plainState.debugEnabled = true → plainState.spinnerMessage = "") ∧
      stopSpinner plainState = (plainState, []) :=
  ⟨rfl, fun _ => rfl,
    (c7_stopSpinner_noop_when_inactive plainState rfl (fun _ => rfl)).1⟩

/-! ## C9 -/

/-- C9: the slug-presence test is string truthiness — supplying the empty
string as the doc-slug behaves exactly as supplying no slug, for both `warn`
and `error`. -/
theorem c9_empty_slug_is_no_slug (m : String) (l act : Option String)
    (opts : Option BoxenOptions) (s : OutputState) :
    warn m (some "") l act opts s = warn m none l act opts s ∧
      error m (some "") l act s = error m none l act s :=
  ⟨rfl, rfl⟩

/-! ## C10 -/

/-- C10: `stopSpinner` is total and emits at most one debug trace per call;
in debug mode the recorded message is cleared by the call, so the re-entrant
inner call (through debug → log → print) finds nothing to do, and a repeated
call is a no-op. -/
theorem c10_stopSpinner_reentrancy (s : OutputState) :
    ((stopSpinner s).2.filter isWrite).length ≤ 1 ∧
      (s.debugEnabled = true → (stopSpinner s).1.spinnerMessage = "") ∧
      stopSpinner (stopSpinner s).1 = ((stopSpinner s).1, []) := by
  refine ⟨?_, ?_, ?_⟩
  · rw [stopSpinner_eq]
    show ((stopTrace s).filter isWrite).length ≤ 1
    unfold stopTrace
    by_cases hc : s.debugEnabled = true ∧ ¬s.spinnerMessage = "" <;>
      cases s.spinner <;> simp [hc, isWrite]
  · intro h
    rw [stopSpinner_eq]
    exact stopState_msg_of_debug s h
  · simp only [stopSpinner_eq]
    simp [stopState_idem, stopTrace_stopState]

theorem c10_witness :
    dbgBusy.debugEnabled = true ∧ (stopSpinner dbgBusy).1.spinnerMessage = "" ∧
      ((stopSpinner dbgBusy).2.filter isWrite).length ≤ 1 :=
  ⟨rfl, (c10_stopSpinner_reentrancy dbgBusy).2.1 rfl, (c10_stopSpinner_reentrancy dbgBusy).1⟩

/-! ## C2 -/

theorem start_not_mem_stopTrace (t : OutputState) (i : Nat) (mm : String) (d : Nat) :
    Eff.startSpinner i mm d ∉ stopTrace t := by
  unfold stopTrace
  by_cases hc : t.debugEnabled = true ∧ ¬t.spinnerMessage = "" <;> cases t.spinner <;> simp [hc]

/-- C2 counterexample: in debug mode `setSpinner` does not leave the message
recorded — its own debug-trace path re-enters `stopSpinner`, which clears the
just-recorded message and emits a spinner-stopped trace, so the call writes
two debug lines and ends with an empty recorded message. -/
theorem c2_counterexample :
    (setSpinner "work" 300 dbgState).1.spinnerMessage = "" ∧
      ¬(setSpinner "work" 300 dbgState).1.spinnerMessage = "work" ∧
      ((setSpinner "work" 300 dbgState).2.filter isWrite).length = 2 := by
  rw [setSpinner_debug_expand _ _ _ rfl]
  refine ⟨by decide, by decide, by decide⟩

/-- C2 (amended): at most one spinner handle is ever active (the state holds
at most one); `setSpinner` on an active spinner retexts that same handle in
place and creates no second resource; `setSpinner` with none active creates
exactly one; and in debug mode `setSpinner` assigns the message (its own
debug-trace path then clears the record back to empty), emits the invocation
debug trace, and never creates a spinner handle. -/
theorem c2_setSpinner_single_handle (m : String) (dl : Nat) (s : OutputState) :
    (s.debugEnabled = true →
      (setSpinner m dl s).1.spinnerMessage = "" ∧
        (∀ i mm d, Eff.startSpinner i mm d ∉ (setSpinner m dl s).2) ∧
        Eff.write (debugLine s.now
            ("Spinner invoked (" ++ m ++ ") with a " ++ toString dl ++ "ms delay")) ∈
          (setSpinner m dl s).2 ∧
        (s.spinner = none → (setSpinner m dl s).1.spinner = none)) ∧
    (∀ hd, s.debugEnabled = false → s.spinner = some hd →
      setSpinner m dl s =
        ({ s with spinnerMessage := m, spinner := some { hd with text := m } },
          [Eff.setText hd.id m])) ∧
    (s.debugEnabled = false → s.spinner = none →
      setSpinner m dl s =
        ({ s with
            spinnerMessage := m
            spinner := some { id := s.nextId, text := m }
            nextId := s.nextId + 1 },
          [Eff.startSpinner s.nextId m dl])) := by
  refine ⟨?_, ?_, ?_⟩
  · intro h
    rw [setSpinner_debug_expand m dl s h]
    refine ⟨stopState_msg_of_debug _ h, ?_, ?_, ?_⟩
    · intro i mm d hmem
      rcases List.mem_append.1 hmem with hmem | hmem
      · exact start_not_mem_stopTrace _ i mm d hmem
      · simp at hmem
    · exact List.mem_append_right _ (by simp)
    · intro _
      exact stopState_spinner _
  · intro hd h hsp
    exact setSpinner_active m dl s hd h hsp
  · intro h hsp
    exact setSpinner_fresh m dl s h hsp

theorem c2_witness :
    spinState.debugEnabled = false ∧ spinState.spinner = some { id := 0, text := "work" } ∧
      setSpinner "next" 300 spinState =
        ({ spinState with spinnerMessage := "next", spinner := some { id := 0, text := "next" } },
          [Eff.setText 0 "next"]) :=
  ⟨rfl, rfl,
    (c2_setSpinner_single_handle "next" 300 spinState).2.1 { id := 0, text := "work" } rfl rfl⟩

/-! ## C8 -/

/-- C8: `prettyError {message, link}` is exactly `error(message, undefined,
link)` — the very same state transition and trace — and with a truthy link the
call writes the `Error!` line followed by the action line rendering the link
with the default action label. -/
theorem c8_prettyError_delegates (m l : String) (act : Option String) (s : OutputState) :
    prettyError m (some l) act s = error m none (some l) act s ∧
      (¬l = "" →
        (error m none (some l) act s).2 =
          stopTrace s ++
            [Eff.write (errorLine m),
              Eff.write (chalk.bold (act.getD "Learn More") ++ ": " ++ renderLink l ++ "\n")]) := by
  constructor
  · rfl
  · intro hl
    rw [error_expand]
    simp [detailsOf, hl]

theorem c8_witness :
    ¬("https://x" : String) = "" ∧
      (error "bad" none (some "https://x") none plainState).2 =
        stopTrace plainState ++
          [Eff.write (errorLine "bad"),
            Eff.write (chalk.bold "Learn More" ++ ": " ++ renderLink "https://x" ++ "\n")] :=
  ⟨by decide, (c8_prettyError_delegates "bad" "https://x" none plainState).2 (by decide)⟩

/-! ## C6 -/

/-- C6 counterexample: in debug mode with a recorded spinner message (the
state a debug-mode `setSpinner` reaches), a `debug` call writes two log lines
— the pending spinner-stopped trace and its own line — not exactly one. -/
theorem c6_counterexample :
    dbgBusy.debugEnabled = true ∧ ((debug "x" dbgBusy).2.filter isWrite).length = 2 := by
  refine ⟨rfl, ?_⟩
  rw [debug_on _ _ rfl]
  decide

/-- C6 (amended): with debug mode disabled, `debug` writes nothing and leaves
the state unchanged; with debug mode enabled and no recorded spinner message,
`debug text` performs exactly one stderr write, and that line contains the
literal `[debug]` tag and the bracketed timestamp, which is a well-formed
ISO-8601 timestamp. -/
theorem c6_debug_line_shape (str : String) (s : OutputState) :
    (s.debugEnabled = false → debug str s = (s, [])) ∧
    (s.debugEnabled = true → s.spinnerMessage = "" →
      (debug str s).2.filter isWrite = [Eff.write (debugLine s.now str)] ∧
        strContains (debugLine s.now str) "[debug]" = true ∧
        strContains (debugLine s.now str) ("[" ++ Date.toISOString s.now ++ "]") = true ∧
        isISO8601 (Date.toISOString s.now) = true) := by
  constructor
  · intro h
    exact debug_neg str s (by simp [h])
  · intro h hm
    rw [debug_on _ _ h]
    refine ⟨?_, ?_, ?_, toISOString_wf s.now⟩
    · unfold stopTrace
      cases s.spinner <;> simp [hm, isWrite]
    · have hsplit : debugLine s.now str =
          ("\x1b[90m" ++ (">" ++ ("\x1b[39m" ++ (" " ++ "\x1b[1m")))) ++
            ("[debug]" ++
              ("\x1b[22m" ++ (" " ++ ("\x1b[90m" ++ ("[" ++ (Date.toISOString s.now ++
                ("]" ++ ("\x1b[39m" ++ (" " ++ (str ++ "\n")))))))))) := by
        simp only [debugLine, chalk.bold, chalk.grey, chalk.gray, chalk.wrap, str_assoc]
      rw [hsplit]
      exact strContains_mid _ _ _
    · have hsplit : debugLine s.now str =
          ("\x1b[90m" ++ (">" ++ ("\x1b[39m" ++ (" " ++ ("\x1b[1m" ++ ("[debug]" ++
              ("\x1b[22m" ++ (" " ++ "\x1b[90m")))))))) ++
            (("[" ++ Date.toISOString s.now ++ "]") ++
              ("\x1b[39m" ++ (" " ++ (str ++ "\n")))) := by
        simp only [debugLine, chalk.bold, chalk.grey, chalk.gray, chalk.wrap, str_assoc]
      rw [hsplit]
      exact strContains_mid _ _ _

theorem c6_witness :
    dbgState.debugEnabled = true ∧ dbgState.spinnerMessage = "" ∧
      ((debug "x" dbgState).2.filter isWrite = [Eff.write (debugLine dbgState.now "x")] ∧
        strContains (debugLine dbgState.now "x") "[debug]" = true ∧
        strContains (debugLine dbgState.now "x") ("[" ++ Date.toISOString dbgState.now ++ "]") = true ∧
        isISO8601 (Date.toISOString dbgState.now) = true) :=
  ⟨rfl, rfl, (c6_debug_line_shape "x" dbgState).2 rfl rfl⟩

/-! ## C4 -/

/-- C4: `time` hands the caller exactly the task's own outcome — a failure is
neither wrapped, transformed, nor suppressed — and when the task fails, the
trace is only whatever the start-label `debug` call produced (in non-debug
mode, nothing): no end-label trace is emitted. -/
theorem c4_time_propagates_failure {ε α : Type} (label : TimeLabel α) (fn : TimeTask ε α)
    (s : OutputState) :
    (time label fn s).2 = (resolveTask fn).result ∧
      ∀ e : ε, (resolveTask fn).result = Except.error e →
        (time label fn s).1 =
          if s.debugEnabled = true then debug (labelStr label none) s else (s, []) := by
  unfold time
  by_cases h : s.debugEnabled = true
  · cases hres : (resolveTask fn).result with
    | error e => simp [h, hres]
    | ok v => simp [h, hres]
  · simp [h]

theorem c4_witness :
    (resolveTask (Sum.inl { result := Except.error "boom", duration := 0 } :
        TimeTask String Nat)).result = Except.error "boom" ∧
      (time (TimeLabel.str "x" : TimeLabel Nat)
          (Sum.inl { result := Except.error "boom", duration := 0 } : TimeTask String Nat)
          dbgState).1 =
        (if dbgState.debugEnabled = true then
          debug (labelStr (TimeLabel.str "x" : TimeLabel Nat) none) dbgState
         else (dbgState, [])) :=
  ⟨rfl,
    (c4_time_propagates_failure (TimeLabel.str "x" : TimeLabel Nat)
        (Sum.inl { result := Except.error "boom", duration := 0 } : TimeTask String Nat)
        dbgState).2 "boom" rfl⟩

/-! ## C5 -/

/-- C5: in debug mode, a successful task produces the start trace followed by
one end trace whose line carries the elapsed duration, formatted as
`{d}ms` for d < 1000 and as the seconds value with exactly two decimal places
suffixed `s` otherwise (1500ms renders as `1.50s`, 250ms as `250ms`); in
non-debug mode `time` returns the task's result without any trace. -/
theorem c5_time_end_trace_format {ε α : Type} (label : TimeLabel α) (t : AsyncTask ε α) (v : α)
    (fn : TimeTask ε α) (s : OutputState) :
    (s.debugEnabled = true → t.result = Except.ok v →
      time label (Sum.inl t) s =
        ((stopState s,
          (stopTrace s ++ [Eff.write (debugLine s.now (labelStr label none))]) ++
            [Eff.write (debugLine s.now (labelStr label (some v) ++ " " ++
              chalk.gray ("[" ++ durationPretty t.duration ++ "]")))]),
         Except.ok v)) ∧
    (∀ d : Nat, d < 1000 → durationPretty d = toString d ++ "ms") ∧
    (∀ d : Nat, 1000 ≤ d →
      durationPretty d =
          toString ((d + 5) / 10 / 100) ++ "." ++ pad2 ((d + 5) / 10 % 100) ++ "s" ∧
        (d + 5) / 10 % 100 < 100 ∧ (pad2 ((d + 5) / 10 % 100)).length = 2) ∧
    (durationPretty 1500 = "1.50s" ∧ durationPretty 250 = "250ms") ∧
    (s.debugEnabled = false → time label fn s = ((s, []), (resolveTask fn).result)) := by
  refine ⟨?_, ?_, ?_, ⟨by decide, by decide⟩, ?_⟩
  · intro h hres
    have h₁ : (stopState s).debugEnabled = true := by rw [stopState_debugEnabled]; exact h
    unfold time
    simp only [resolveTask, h, if_true, hres]
    rw [debug_on _ _ h]
    simp only []
    rw [debug_on _ _ h₁]
    simp [stopState_idem, stopTrace_stopState, stopState_now]
  · intro d hd
    simp [durationPretty, hd]
  · intro d hd
    refine ⟨?_, Nat.mod_lt _ (by decide), rfl⟩
    rw [durationPretty, if_neg (by omega)]
    rfl
  · intro h
    unfold time
    simp [h]

theorem c5_witness :
    dbgState.debugEnabled = true ∧
      ({ result := Except.ok 5, duration := 1500 } : AsyncTask String Nat).result =
        Except.ok 5 ∧
      time (TimeLabel.str "X")
          (Sum.inl ({ result := Except.ok 5, duration := 1500 } : AsyncTask String Nat))
          dbgState =
        ((stopState dbgState,
          (stopTrace dbgState ++
              [Eff.write (debugLine dbgState.now (labelStr (TimeLabel.str "X" : TimeLabel Nat) none))]) ++
            [Eff.write (debugLine dbgState.now (labelStr (TimeLabel.str "X") (some 5) ++ " " ++
              chalk.gray ("[" ++ durationPretty 1500 ++ "]")))]),
         Except.ok 5) :=
  ⟨rfl, rfl,
    (c5_time_end_trace_format (TimeLabel.str "X")
        ({ result := Except.ok 5, duration := 1500 } : AsyncTask String Nat) 5
        (Sum.inl { result := Except.ok 5, duration := 1500 }) dbgState).1 rfl rfl⟩

/-! ## C3 -/

theorem url_ne_empty (sl : String) : ¬("https://err.sh/vercel/" ++ sl) = "" := by
  intro hcontra
  have hdata : ("https://err.sh/vercel/" ++ sl).data = [] := by rw [hcontra]
  rw [data_app] at hdata
  rcases List.append_eq_nil.1 hdata with ⟨h1, _⟩
  exact absurd h1 (by decide)

/-- With a truthy slug, the details value is the template URL, whatever the
link. -/
theorem warnActionLine_slug (sl : String) (link act : Option String) (hsl : ¬sl = "") :
    warnActionLine (some sl) link act =
      "\n" ++ tmpl act ++ ": " ++ renderLink ("https://err.sh/vercel/" ++ sl) := by
  simp [warnActionLine, detailsOf, hsl, url_ne_empty sl]

/-- C3 counterexample: the doc-slug test is truthiness, not a non-null test:
with the non-null empty slug `""` and a link also supplied, `warn` renders
the link and no vercel-template URL at all, contradicting the claimed
slug-over-link precedence for every non-null slug. -/
theorem c3_counterexample :
    strContains (outputCat (warn "oops" (some "") (some "https://example.com")
        (some "Learn More") none plainState).2) "https://err.sh/vercel/" = false ∧
      strContains (outputCat (warn "oops" (some "") (some "https://example.com")
        (some "Learn More") none plainState).2) "https://example.com" = true := by
  rw [warn_expand]
  exact ⟨by decide, by decide⟩

/-- C3 (amended): for `warn` and `error`, a non-empty (truthy) doc-slug makes
the rendered action line carry exactly the URL `https://err.sh/vercel/{slug}`
and makes the supplied link irrelevant; with no truthy slug but a non-empty
link the action line renders that link verbatim (no template URL is built
from it); and with neither a truthy slug nor a truthy link no action line is
rendered at all. -/
theorem c3_slug_link_action_line (m sl l : String) (act : Option String)
    (opts : Option BoxenOptions) (s : OutputState) :
    (¬sl = "" →
      warnActionLine (some sl) (some l) act =
          "\n" ++ tmpl act ++ ": " ++ renderLink ("https://err.sh/vercel/" ++ sl) ∧
        (error m (some sl) (some l) act s).2 =
          stopTrace s ++
            [Eff.write (errorLine m),
              Eff.write (chalk.bold (act.getD "Learn More") ++ ": " ++
                renderLink ("https://err.sh/vercel/" ++ sl) ++ "\n")] ∧
        strContains (outputCat (warn m (some sl) (some l) act opts s).2)
          ("https://err.sh/vercel/" ++ sl) = true ∧
        strContains (outputCat (error m (some sl) (some l) act s).2)
          ("https://err.sh/vercel/" ++ sl) = true ∧
        (∀ l₂ : Option String,
          warn m (some sl) (some l) act opts s = warn m (some sl) l₂ act opts s) ∧
        (∀ l₂ : Option String,
          error m (some sl) (some l) act s = error m (some sl) l₂ act s)) ∧
    (¬l = "" →
      warnActionLine none (some l) act = "\n" ++ tmpl act ++ ": " ++ renderLink l ∧
        strContains ("\n" ++ tmpl act ++ ": " ++ renderLink l) l = true ∧
        (error m none (some l) act s).2 =
          stopTrace s ++
            [Eff.write (errorLine m),
              Eff.write (chalk.bold (act.getD "Learn More") ++ ": " ++ renderLink l ++ "\n")] ∧
        strContains (chalk.bold (act.getD "Learn More") ++ ": " ++ renderLink l ++ "\n") l =
          true) ∧
    (warnActionLine none none act = "" ∧ warnActionLine (some "") none act = "" ∧
      warnActionLine none (some "") act = "" ∧
      (error m none none act s).2 = stopTrace s ++ [Eff.write (errorLine m)] ∧
      (error m none (some "") act s).2 = stopTrace s ++ [Eff.write (errorLine m)]) := by
  refine ⟨?_, ?_, ?_⟩
  · intro hsl
    have hne := url_ne_empty sl
    refine ⟨warnActionLine_slug sl (some l) act hsl, ?_, ?_, ?_, ?_, ?_⟩
    · rw [error_expand]
      simp [detailsOf, hsl, hne]
    · rw [warn_expand, outputCat_append]
      apply strContains_right
      simp only [outputCat]
      apply strContains_left
      rw [boxen]
      apply strContains_left
      apply strContains_right
      rw [warnActionLine_slug sl (some l) act hsl]
      apply strContains_right
      apply strContains_right
      rw [renderLink]
      exact strContains_refl _
    · rw [error_expand]
      simp only [detailsOf, if_neg hsl, if_neg hne]
      rw [outputCat_append]
      apply strContains_right
      simp only [outputCat]
      apply strContains_right
      apply strContains_left
      apply strContains_left
      apply strContains_right
      rw [renderLink]
      exact strContains_refl _
    · intro l₂
      rw [warn_expand, warn_expand, warnActionLine_slug sl (some l) act hsl,
        warnActionLine_slug sl l₂ act hsl]
    · intro l₂
      rw [error_expand, error_expand]
      simp [detailsOf, hsl]
  · intro hl
    refine ⟨by simp [warnActionLine, detailsOf, hl], ?_, ?_, ?_⟩
    · apply strContains_right
      rw [renderLink]
      exact strContains_refl _
    · rw [error_expand]
      simp [detailsOf, hl]
    · apply strContains_left
      apply strContains_right
      rw [renderLink]
      exact strContains_refl _
  · refine ⟨rfl, rfl, rfl, ?_, ?_⟩
    · rw [error_expand]
      simp [detailsOf]
    · rw [error_expand]
      simp [detailsOf]

theorem c3_witness :
    ¬("my-slug" : String) = "" ∧
      strContains (outputCat (warn "oops" (some "my-slug") (some "https://example.com")
          (some "Learn More") none plainState).2)
        ("https://err.sh/vercel/" ++ "my-slug") = true :=
  ⟨by decide,
    ((c3_slug_link_action_line "oops" "my-slug" "https://example.com" (some "Learn More")
        none plainState).1 (by decide)).2.2.1⟩

end CreateOutput
